import Mathlib

/-!
Shallow embedding of the trade-signal bridge
(`src/trading-bridge/python/bridge/signal_manager.py` and
`src/trading-bridge/python/bridge/mql5_bridge.py`) together with theorems
checking the natural-language specification against it.

Conventions of the embedding:
* Python floats become `Rat` (only comparisons and zero-tests occur).
* Python `datetime` values become a `PyDateTime` record of calendar
  components; `datetime.isoformat` / `datetime.fromisoformat` are modelled
  on the canonical textual format they exchange.
* Python lists become `List`, the dedup `set` becomes a `List String`
  used only through membership and insertion.
* Python slice expressions `xs[:c]` and `xs[c:]` (with possibly negative
  `c`) are modelled by `pySliceTo` / `pySliceFrom` below, including the
  clamping and the `-0 = 0` behaviour of negative indices.
* Methods that mutate `self` become functions returning the new state.
-/

namespace Bridge

/-- Effective element index of a Python slice bound `c` for a list of
length `n`: a non-negative bound is used as is (`take`/`drop` saturate
beyond the length, exactly as Python slices do), a negative bound counts
from the end and clamps at 0.  Note `-0 = 0`, so a bound written `-k`
with `k = 0` denotes the start of the list, not its end. -/
def pySliceIdx (n : Nat) (c : Int) : Nat :=
  if 0 ≤ c then c.toNat else n - (-c).toNat

/-- Python `xs[:c]`. -/
def pySliceTo {α : Type} (xs : List α) (c : Int) : List α :=
  xs.take (pySliceIdx xs.length c)

/-- Python `xs[c:]`. -/
def pySliceFrom {α : Type} (xs : List α) (c : Int) : List α :=
  xs.drop (pySliceIdx xs.length c)

/-- Model of Python `str.upper()` (all strings it is applied to in the
source are ASCII, where Python and Unicode uppercasing agree). -/
def pyUpper (s : String) : String := ⟨s.data.map Char.toUpper⟩

/-- Model of a Python `datetime.datetime` value: the calendar components
carried by the object.  (Timezone-naive, as in the source.) -/
structure PyDateTime where
  year : Nat
  month : Nat
  day : Nat
  hour : Nat
  minute : Nat
  second : Nat
  microsecond : Nat
deriving DecidableEq, Repr

/-- Ranges Python `datetime` enforces at construction
(`MINYEAR = 1 ≤ year ≤ MAXYEAR = 9999`, and so on). -/
def PyDateTime.Valid (t : PyDateTime) : Prop :=
  1 ≤ t.year ∧ t.year ≤ 9999 ∧
  1 ≤ t.month ∧ t.month ≤ 12 ∧
  1 ≤ t.day ∧ t.day ≤ 31 ∧
  t.hour ≤ 23 ∧ t.minute ≤ 59 ∧ t.second ≤ 59 ∧
  t.microsecond ≤ 999999

instance (t : PyDateTime) : Decidable t.Valid := by
  unfold PyDateTime.Valid; infer_instance

/-- Decimal digit character, `'0'` + d for a digit d. -/
def digitChar (d : Nat) : Char := Char.ofNat (48 + d)

/-- Two-digit zero-padded decimal rendering (Python `%02d`). -/
def pad2 (n : Nat) : List Char := [digitChar (n / 10), digitChar (n % 10)]

/-- Four-digit zero-padded decimal rendering (Python `%04d`). -/
def pad4 (n : Nat) : List Char := pad2 (n / 100) ++ pad2 (n % 100)

/-- Six-digit zero-padded decimal rendering (Python `%06d`). -/
def pad6 (n : Nat) : List Char :=
  pad2 (n / 10000) ++ pad2 ((n / 100) % 100) ++ pad2 (n % 100)

/-- Character list of `datetime.isoformat()`:
`YYYY-MM-DDTHH:MM:SS` plus `.ffffff` when the microsecond field is
non-zero (Python omits the fraction when it is zero). -/
def isoChars (t : PyDateTime) : List Char :=
  pad4 t.year ++ '-' :: pad2 t.month ++ '-' :: pad2 t.day ++
  'T' :: pad2 t.hour ++ ':' :: pad2 t.minute ++ ':' :: pad2 t.second ++
  (if t.microsecond = 0 then [] else '.' :: pad6 t.microsecond)

/-- Model of `datetime.isoformat()`. -/
def isoformat (t : PyDateTime) : String := ⟨isoChars t⟩

/-- Reads two decimal digits, returning their value and the rest. -/
def read2 : List Char → Option (Nat × List Char)
  | c1 :: c2 :: rest =>
      if c1.isDigit ∧ c2.isDigit then
        some ((c1.toNat - 48) * 10 + (c2.toNat - 48), rest)
      else none
  | _ => none

/-- Consumes one expected separator character. -/
def expectChar (c : Char) : List Char → Option (List Char)
  | c1 :: rest => if c1 = c then some rest else none
  | [] => none

/-- Tail of the parse after the seconds field: end of input means a
zero microsecond field, a dot introduces exactly six fractional digits,
anything else is rejected. -/
def parseFraction (y mo d h mi s : Nat) (r : List Char) : Option PyDateTime :=
  match r with
  | [] => some ⟨y, mo, d, h, mi, s, 0⟩
  | '.' :: r =>
      (read2 r).bind fun p1 =>
      (read2 p1.2).bind fun p2 =>
      (read2 p2.2).bind fun p3 =>
      match p3.2 with
      | [] => some ⟨y, mo, d, h, mi, s, p1.1 * 10000 + p2.1 * 100 + p3.1⟩
      | _ => none
  | _ => none

/-- Model of `datetime.fromisoformat` on the canonical format produced by
`isoformat` (the only shape arising in the source): parses
`YYYY-MM-DD[T]HH:MM:SS[.ffffff]` and fails (Python raises `ValueError`,
modelled as `none`) on anything else. -/
def fromisoChars (cs : List Char) : Option PyDateTime :=
  (read2 cs).bind fun py1 =>
  (read2 py1.2).bind fun py2 =>
  (expectChar '-' py2.2).bind fun r =>
  (read2 r).bind fun pmo =>
  (expectChar '-' pmo.2).bind fun r =>
  (read2 r).bind fun pd =>
  (expectChar 'T' pd.2).bind fun r =>
  (read2 r).bind fun ph =>
  (expectChar ':' ph.2).bind fun r =>
  (read2 r).bind fun pmi =>
  (expectChar ':' pmi.2).bind fun r =>
  (read2 r).bind fun ps =>
  parseFraction (py1.1 * 100 + py2.1) pmo.1 pd.1 ph.1 pmi.1 ps.1 ps.2

/-- Model of `datetime.fromisoformat` on `String`. -/
def fromisoformat (s : String) : Option PyDateTime := fromisoChars s.data

/-- Embedding of the `TradeSignal` dataclass after `__post_init__` has
run: `timestamp` and `signal_id` are always populated (the constructor
fills them in when absent), so they are plain fields here. -/
structure TradeSignal where
  symbol : String
  action : String
  broker : String
  lot_size : Rat
  stop_loss : Option Rat := none
  take_profit : Option Rat := none
  comment : String := ""
  timestamp : PyDateTime
  signal_id : String
deriving DecidableEq, Repr

/-- Names accepted by the `TradeAction` enum: `TradeAction(a)` succeeds
exactly when `a` is one of the four member values. -/
def isTradeActionName (a : String) : Prop :=
  a = "BUY" ∨ a = "SELL" ∨ a = "CLOSE" ∨ a = "MODIFY"

instance (a : String) : Decidable (isTradeActionName a) := by
  unfold isTradeActionName; infer_instance

/-- Python truthiness of an `Optional[float]`: `None` and `0.0` are
falsy, every other float is truthy. -/
def floatTruthy : Option Rat → Prop
  | none => False
  | some x => x ≠ 0

instance (x : Option Rat) : Decidable (floatTruthy x) := by
  cases x <;> unfold floatTruthy <;> infer_instance

/-- Guard `x is not None and x <= 0` of the positivity checks: present
but non-positive. -/
def nonposPresent : Option Rat → Prop
  | none => False
  | some v => v ≤ 0

instance (x : Option Rat) : Decidable (nonposPresent x) := by
  cases x <;> unfold nonposPresent <;> infer_instance

/-- Embedding of `TradeSignal.validate`: each guard returns
`(False, message)` in the order written in the source; the final
stop-loss / take-profit direction checks only run when both levels are
present and truthy (`if ... and self.stop_loss and self.take_profit`). -/
def TradeSignal.validate (s : TradeSignal) : Bool × Option String :=
  if s.symbol = "" ∨ s.symbol.length < 3 then
    (false, some "Invalid symbol")
  else if ¬ isTradeActionName (pyUpper s.action) then
    (false, some ("Invalid action: " ++ s.action))
  else if s.lot_size ≤ 0 then
    (false, some "Lot size must be positive")
  else if nonposPresent s.stop_loss then
    (false, some "Stop loss must be positive")
  else if nonposPresent s.take_profit then
    (false, some "Take profit must be positive")
  else if pyUpper s.action = "BUY" ∧ floatTruthy s.stop_loss ∧
      floatTruthy s.take_profit ∧
      (s.stop_loss.getD 0 ≥ s.take_profit.getD 0) then
    (false, some "Stop loss must be less than take profit for BUY")
  else if pyUpper s.action = "SELL" ∧ floatTruthy s.stop_loss ∧
      floatTruthy s.take_profit ∧
      (s.stop_loss.getD 0 ≤ s.take_profit.getD 0) then
    (false, some "Stop loss must be greater than take profit for SELL")
  else
    (true, none)

/-- Embedding of `TradeSignal.to_dict` output: the `asdict` image with
the timestamp replaced by its `isoformat` string.  (Field set and types
as produced by `to_dict`.) -/
structure SignalDict where
  symbol : String
  action : String
  broker : String
  lot_size : Rat
  stop_loss : Option Rat
  take_profit : Option Rat
  comment : String
  timestamp : String
  signal_id : String
deriving DecidableEq, Repr

/-- Embedding of `TradeSignal.to_dict`. -/
def TradeSignal.to_dict (s : TradeSignal) : SignalDict :=
  { symbol := s.symbol, action := s.action, broker := s.broker,
    lot_size := s.lot_size, stop_loss := s.stop_loss,
    take_profit := s.take_profit, comment := s.comment,
    timestamp := isoformat s.timestamp, signal_id := s.signal_id }

/-- Embedding of `TradeSignal.from_dict` on a dict of the shape `to_dict`
produces: the timestamp string is parsed with `fromisoformat` (a parse
failure raises in Python, modelled as `none`), then the dataclass is
rebuilt; `__post_init__` regenerates nothing because both `timestamp`
and `signal_id` are present. -/
def TradeSignal.from_dict (d : SignalDict) : Option TradeSignal := do
  let t ← fromisoformat d.timestamp
  some { symbol := d.symbol, action := d.action, broker := d.broker,
         lot_size := d.lot_size, stop_loss := d.stop_loss,
         take_profit := d.take_profit, comment := d.comment,
         timestamp := t, signal_id := d.signal_id }

/-- Embedding of the `SignalManager` state: pending queue, history,
the two capacity settings, and the dedup set (a Python `set`, used only
through membership, modelled as a list of ids). -/
structure SignalManager where
  queue : List TradeSignal
  history : List TradeSignal
  max_queue_size : Nat
  max_history : Nat
  processed_signals : List String
deriving Repr

/-- Embedding of `SignalManager.__init__`. -/
def SignalManager.init (max_queue_size : Nat := 1000)
    (max_history : Nat := 10000) : SignalManager :=
  { queue := [], history := [], max_queue_size := max_queue_size,
    max_history := max_history, processed_signals := [] }

/-- Embedding of `SignalManager.add_signal`: validation, duplicate check
and capacity check in source order, each returning with the state
untouched; on success the signal is appended to the queue and its id
added to the dedup set. -/
def SignalManager.add_signal (m : SignalManager) (s : TradeSignal) :
    (Bool × Option String) × SignalManager :=
  let v := s.validate
  if v.1 = false then ((false, v.2), m)
  else if s.signal_id ∈ m.processed_signals then
    ((false, some "Duplicate signal"), m)
  else if m.queue.length ≥ m.max_queue_size then
    ((false, some "Queue is full"), m)
  else
    ((true, none),
     { m with queue := m.queue ++ [s],
              processed_signals := s.signal_id :: m.processed_signals })

/-- History trimming step of `get_signals`:
`if len(history) > max_history: history = history[-max_history:]`.
Through `pySliceFrom` this keeps the whole list when `max_history = 0`
(the slice bound `-0` is `0`). -/
def trimHistory (cap : Nat) (h : List TradeSignal) : List TradeSignal :=
  if h.length > cap then pySliceFrom h (-(cap : Int)) else h

/-- Embedding of `SignalManager.get_signals`: `None` drains the whole
queue; an integer count splits the queue by Python slicing; the taken
signals are appended to the history, which is then trimmed to its cap. -/
def SignalManager.get_signals (m : SignalManager) (count : Option Int) :
    List TradeSignal × SignalManager :=
  let (signals, queue) :=
    match count with
    | none => (m.queue, ([] : List TradeSignal))
    | some c => (pySliceTo m.queue c, pySliceFrom m.queue c)
  (signals,
   { m with queue := queue,
            history := trimHistory m.max_history (m.history ++ signals) })

/-- Embedding of `SignalManager.get_queue_size`. -/
def SignalManager.get_queue_size (m : SignalManager) : Nat :=
  m.queue.length

/-- Embedding of `SignalManager.clear_queue`. -/
def SignalManager.clear_queue (m : SignalManager) : SignalManager :=
  { m with queue := [] }

/-- Embedding of `SignalManager.get_history`: the whole history for
`None`, the slice `history[-limit:]` for a positive limit, `[]`
otherwise. -/
def SignalManager.get_history (m : SignalManager) (limit : Option Int) :
    List TradeSignal :=
  match limit with
  | none => m.history
  | some k => if k > 0 then pySliceFrom m.history (-k) else []

/-- Embedding of `SignalManager.get_signal_by_id`: first match scanning
the history newest-first. -/
def SignalManager.get_signal_by_id (m : SignalManager) (signal_id : String) :
    Option TradeSignal :=
  m.history.reverse.find? (fun s => s.signal_id = signal_id)

/-- Operations a caller can perform on a `SignalManager`, for stating
properties over arbitrary operation sequences. -/
inductive StoreOp where
  | add (s : TradeSignal)
  | take (count : Option Int)
  | clear
  | history (limit : Option Int)
  | find (signal_id : String)
  | size
deriving Repr

/-- State reached after one store operation (read-only operations leave
the state unchanged). -/
def runOp (m : SignalManager) : StoreOp → SignalManager
  | .add s => (m.add_signal s).2
  | .take c => (m.get_signals c).2
  | .clear => m.clear_queue
  | .history _ => m
  | .find _ => m
  | .size => m

/-- State reached after a sequence of store operations. -/
def runOps (m : SignalManager) (ops : List StoreOp) : SignalManager :=
  ops.foldl runOp m

/-- Counters kept by the bridge (`self.stats`). -/
structure Stats where
  signals_sent : Nat
  signals_received : Nat
  errors : Nat
  reconnections : Nat
deriving DecidableEq, Repr

/-- Embedding of the `MQL5Bridge` session state touched by request
processing and the heartbeat monitor.  Wall-clock instants
(`datetime.now()` readings) are modelled as integer seconds, which is
all the elapsed-time comparison consumes. -/
structure MQL5Bridge where
  signal_manager : SignalManager
  connection_status : String
  last_heartbeat : Option Int
  heartbeat_timeout : Int
  stats : Stats
deriving Repr

/-- Bridge state as `__init__` leaves it (before `start`). -/
def MQL5Bridge.init : MQL5Bridge :=
  { signal_manager := SignalManager.init,
    connection_status := "disconnected",
    last_heartbeat := none,
    heartbeat_timeout := 30,
    stats := ⟨0, 0, 0, 0⟩ }

/-- Inbound RPC request: the fields `_process_request` reads via
`request.get`.  A missing `action` key reads as `""`. -/
structure Request where
  action : String
  count : Option Int := none
  status : String := ""
  message : String := ""
deriving Repr

/-- Response dictionary returned by `_process_request`, one constructor
per branch. -/
inductive Response where
  | signals (signals : List SignalDict) (queue_size : Nat)
  | statusOk
  | heartbeat (timestamp : Int) (queue_size : Nat)
  | bridgeStatus (connection_status : String) (queue_size : Nat)
      (stats : Stats) (last_heartbeat : Option Int)
  | error (message : String)
deriving Repr

/-- Embedding of `MQL5Bridge._process_request`, with `now` the value
`datetime.now()` would return during the call. -/
def MQL5Bridge.process_request (b : MQL5Bridge) (req : Request) (now : Int) :
    Response × MQL5Bridge :=
  let action := pyUpper req.action
  if action = "GET_SIGNALS" then
    let (signals, sm) := b.signal_manager.get_signals req.count
    (Response.signals (signals.map TradeSignal.to_dict) sm.get_queue_size,
     { b with signal_manager := sm,
              stats := { b.stats with
                signals_sent := b.stats.signals_sent + signals.length } })
  else if action = "SEND_STATUS" then
    (Response.statusOk,
     { b with last_heartbeat := some now, connection_status := "connected" })
  else if action = "HEARTBEAT" then
    (Response.heartbeat now b.signal_manager.get_queue_size,
     { b with last_heartbeat := some now, connection_status := "connected" })
  else if action = "GET_BRIDGE_STATUS" then
    (Response.bridgeStatus b.connection_status
       b.signal_manager.get_queue_size b.stats b.last_heartbeat, b)
  else
    (Response.error ("Unknown action: " ++ action), b)

/-- One pass of the `_monitor_heartbeat` loop body after its sleep, with
`now` the `datetime.now()` reading: when a last contact is recorded and
more than `heartbeat_timeout` seconds have elapsed, the status is set to
`disconnected` and the warning diagnostic is emitted.  The returned
`Bool` records whether that degrade action fired on this poll. -/
def MQL5Bridge.monitor_tick (b : MQL5Bridge) (now : Int) :
    MQL5Bridge × Bool :=
  match b.last_heartbeat with
  | some t =>
      if now - t > b.heartbeat_timeout then
        ({ b with connection_status := "disconnected" }, true)
      else (b, false)
  | none => (b, false)

/-! Concrete values used by witnesses and counterexamples. -/

/-- Sample timestamp (2024-03-05 14:07:09). -/
def tEx : PyDateTime := ⟨2024, 3, 5, 14, 7, 9, 0⟩

/-- Valid BUY signal with protective levels. -/
def sigValid : TradeSignal :=
  { symbol := "EURUSD", action := "BUY", broker := "Exness", lot_size := 1,
    stop_loss := some 1, take_profit := some 2, comment := "",
    timestamp := tEx, signal_id := "EURUSD_BUY_1709647629" }

/-- Valid signal without protective levels. -/
def sigPlain : TradeSignal :=
  { symbol := "EURUSD", action := "BUY", broker := "Exness", lot_size := 1,
    stop_loss := none, take_profit := none, comment := "",
    timestamp := tEx, signal_id := "EURUSD_BUY_0" }

/-- Second distinct valid signal (different id and symbol). -/
def sigOther : TradeSignal :=
  { symbol := "GBPUSD", action := "SELL", broker := "Exness", lot_size := 2,
    stop_loss := none, take_profit := none, comment := "",
    timestamp := tEx, signal_id := "GBPUSD_SELL_0" }

/-- Store whose history already holds `sigPlain` then `sigOther`
(so `sigOther` is the newest history entry). -/
def mHist : SignalManager :=
  { queue := [], history := [sigPlain, sigOther], max_queue_size := 1000,
    max_history := 10000, processed_signals := [] }

/-- C1: `add_signal` rejects in the order validation failure, duplicate
id, queue full, each time returning `(false, reason)` with the matching
reason and leaving the state (queue, history, dedup set) exactly as it
was; on success it returns `(true, none)`, appends the signal to the end
of the queue and records its id in the dedup set. -/
theorem C1_add_signal_contract (m : SignalManager) (s : TradeSignal) :
    (s.validate.1 = false →
      m.add_signal s = ((false, s.validate.2), m)) ∧
    (s.validate.1 = true → s.signal_id ∈ m.processed_signals →
      m.add_signal s = ((false, some "Duplicate signal"), m)) ∧
    (s.validate.1 = true → s.signal_id ∉ m.processed_signals →
      m.max_queue_size ≤ m.queue.length →
      m.add_signal s = ((false, some "Queue is full"), m)) ∧
    (s.validate.1 = true → s.signal_id ∉ m.processed_signals →
      m.queue.length < m.max_queue_size →
      m.add_signal s = ((true, none),
        { m with queue := m.queue ++ [s],
                 processed_signals := s.signal_id :: m.processed_signals })) := by
  refine ⟨fun hv => ?_, fun hv hd => ?_, fun hv hd hc => ?_, fun hv hd hc => ?_⟩
  · simp [SignalManager.add_signal, hv]
  · simp [SignalManager.add_signal, hv, hd]
  · simp [SignalManager.add_signal, hv, hd, ge_iff_le, hc]
  · simp [SignalManager.add_signal, hv, hd, ge_iff_le, Nat.not_le.mpr hc]

/-- Witness for C1 at a concrete store and signal: the success branch
at an empty store with capacity 2. -/
theorem C1_witness :
    (SignalManager.init 2 3).add_signal sigValid =
      ((true, none),
       { SignalManager.init 2 3 with
           queue := (SignalManager.init 2 3).queue ++ [sigValid],
           processed_signals :=
             sigValid.signal_id ::
               (SignalManager.init 2 3).processed_signals }) :=
  (C1_add_signal_contract (SignalManager.init 2 3) sigValid).2.2.2
    (by decide) (by decide) (by decide)

/-- C2: `get_signals k` for a non-negative count returns exactly
`min k (queue length)` signals, the first of the queue in FIFO order,
removes them from the queue, and appends them (in that order, subject to
the history-cap trim) to the history; `get_signals none` does the same
for the whole queue. -/
theorem C2_take_fifo (m : SignalManager) (k : Nat) :
    ((m.get_signals (some (k : Int))).1 = m.queue.take k ∧
     (m.get_signals (some (k : Int))).1.length = min k m.queue.length ∧
     (m.get_signals (some (k : Int))).2.queue = m.queue.drop k ∧
     (m.get_signals (some (k : Int))).2.history =
       trimHistory m.max_history (m.history ++ m.queue.take k)) ∧
    ((m.get_signals none).1 = m.queue ∧
     (m.get_signals none).2.queue = [] ∧
     (m.get_signals none).2.history =
       trimHistory m.max_history (m.history ++ m.queue)) := by
  constructor
  · have hidx : pySliceIdx m.queue.length (k : Int) = k := by
      simp [pySliceIdx]
    refine ⟨?_, ?_, ?_, ?_⟩ <;>
      simp [SignalManager.get_signals, pySliceTo, pySliceFrom, hidx]
  · refine ⟨rfl, rfl, rfl⟩

/-- C10: for every integer count, including zero and negative values,
the signals returned by `get_signals` concatenated with the queue left
behind are exactly the queue before the call, and the new history is the
old history with precisely the returned signals appended (then trimmed):
nothing is lost or duplicated. -/
theorem C10_take_partition (m : SignalManager) (c : Int) :
    (m.get_signals (some c)).1 ++ (m.get_signals (some c)).2.queue =
      m.queue ∧
    (m.get_signals (some c)).2.history =
      trimHistory m.max_history (m.history ++ (m.get_signals (some c)).1) := by
  constructor
  · simp [SignalManager.get_signals, pySliceTo, pySliceFrom]
  · rfl

/-- C3: on a signal whose other fields are valid (symbol of length at
least 3, positive lot size, both protective levels present and
positive), a BUY with stop-loss at or above take-profit and a SELL with
stop-loss at or below take-profit both fail `validate` with the
corresponding reason string (a returned value, not a raised failure). -/
theorem C3_direction_checks (s : TradeSignal) (sl tp : Rat)
    (hsym : 3 ≤ s.symbol.length) (hlot : 0 < s.lot_size)
    (hsl : s.stop_loss = some sl) (htp : s.take_profit = some tp)
    (hsl0 : 0 < sl) (htp0 : 0 < tp) :
    (s.action = "BUY" → tp ≤ sl →
      s.validate =
        (false, some "Stop loss must be less than take profit for BUY")) ∧
    (s.action = "SELL" → sl ≤ tp →
      s.validate =
        (false, some "Stop loss must be greater than take profit for SELL")) := by
  have c1 : ¬ (s.symbol = "" ∨ s.symbol.length < 3) := by
    rintro (h | h)
    · rw [h] at hsym; exact absurd hsym (by decide)
    · omega
  have c3 : ¬ (s.lot_size ≤ 0) := not_le.mpr hlot
  have c4 : ¬ nonposPresent s.stop_loss := by
    rw [hsl]; simp only [nonposPresent]; exact not_le.mpr hsl0
  have c5 : ¬ nonposPresent s.take_profit := by
    rw [htp]; simp only [nonposPresent]; exact not_le.mpr htp0
  have tsl : floatTruthy s.stop_loss := by
    rw [hsl]; simp only [floatTruthy]; exact hsl0.ne'
  have ttp : floatTruthy s.take_profit := by
    rw [htp]; simp only [floatTruthy]; exact htp0.ne'
  constructor
  · intro hact hge
    have hup : pyUpper s.action = "BUY" := by rw [hact]; decide
    have c2 : ¬ ¬ isTradeActionName (pyUpper s.action) := by
      rw [hup]; decide
    have c6 : pyUpper s.action = "BUY" ∧ floatTruthy s.stop_loss ∧
        floatTruthy s.take_profit ∧
        (s.stop_loss.getD 0 ≥ s.take_profit.getD 0) := by
      refine ⟨hup, tsl, ttp, ?_⟩
      rw [hsl, htp]; simpa using hge
    unfold TradeSignal.validate
    rw [if_neg c1, if_neg c2, if_neg c3, if_neg c4, if_neg c5, if_pos c6]
  · intro hact hle
    have hup : pyUpper s.action = "SELL" := by rw [hact]; decide
    have c2 : ¬ ¬ isTradeActionName (pyUpper s.action) := by
      rw [hup]; decide
    have c6 : ¬ (pyUpper s.action = "BUY" ∧ floatTruthy s.stop_loss ∧
        floatTruthy s.take_profit ∧
        (s.stop_loss.getD 0 ≥ s.take_profit.getD 0)) := by
      rintro ⟨h, -⟩; rw [hup] at h; exact absurd h (by decide)
    have c7 : pyUpper s.action = "SELL" ∧ floatTruthy s.stop_loss ∧
        floatTruthy s.take_profit ∧
        (s.stop_loss.getD 0 ≤ s.take_profit.getD 0) := by
      refine ⟨hup, tsl, ttp, ?_⟩
      rw [hsl, htp]; simpa using hle
    unfold TradeSignal.validate
    rw [if_neg c1, if_neg c2, if_neg c3, if_neg c4, if_neg c5, if_neg c6,
        if_pos c7]

/-- Witness for C3 at concrete signals: a BUY with stop-loss 2 above
take-profit 1, and a SELL with stop-loss 1 below take-profit 2, both
rejected with their reason strings. -/
theorem C3_witness :
    ({ sigValid with stop_loss := some 2, take_profit := some 1 }
        : TradeSignal).validate =
      (false, some "Stop loss must be less than take profit for BUY") ∧
    ({ sigValid with action := "SELL" } : TradeSignal).validate =
      (false, some "Stop loss must be greater than take profit for SELL") :=
  ⟨(C3_direction_checks
      { sigValid with stop_loss := some 2, take_profit := some 1 } 2 1
      (by decide) (by decide) rfl rfl (by decide) (by decide)).1 rfl
      (by decide),
   (C3_direction_checks { sigValid with action := "SELL" } 1 2
      (by decide) (by decide) rfl rfl (by decide) (by decide)).2 rfl
      (by decide)⟩

/-- C4: evaluation at the failing configuration.  With history cap 0,
adding a valid signal and draining the queue leaves one entry in the
history: the trim `history[-max_history:]` with `max_history = 0` is the
whole-list slice `history[0:]`, so the invariant `len(history) ≤ cap`
is violated (length 1 > cap 0). -/
theorem C4_history_cap_violation :
    (runOps (SignalManager.init 10 0)
        [StoreOp.add sigPlain, StoreOp.take none]).history.length = 1 ∧
    (SignalManager.init 10 0).max_history = 0 := by
  constructor
  · rfl
  · rfl

/-- C5 counterexample: with history `[sigPlain, sigOther]` (so
`sigOther` is the newest entry), `get_history none` returns the entries
oldest-first, not newest-first as the claim states: the returned
sequence is `[sigPlain, sigOther]`, whereas a most-recent-first sequence
of this history would be `[sigOther, sigPlain]`, a different list. -/
theorem C5_counterexample :
    mHist.get_history none = [sigPlain, sigOther] ∧
    [sigPlain, sigOther] ≠ [sigOther, sigPlain] := by
  constructor
  · rfl
  · decide

/-- C5 amended: `get_history` returns the stored history entries in
chronological (oldest-first) order, newest entry last: all of them for
`none`, the most recent `limit` of them (the final segment of the
history, still oldest-first) for a positive `limit` — in particular at
most `limit` entries — and `[]` for `limit ≤ 0`. -/
theorem C5_history_order (m : SignalManager) :
    m.get_history none = m.history ∧
    (∀ k : Int, 0 < k →
      m.get_history (some k) =
        m.history.drop (m.history.length - k.toNat) ∧
      (m.get_history (some k)).length ≤ k.toNat) ∧
    (∀ k : Int, k ≤ 0 → m.get_history (some k) = []) := by
  refine ⟨rfl, fun k hk => ?_, fun k hk => ?_⟩
  · have hneg : ¬ (0 ≤ -k) := by omega
    have heq : m.get_history (some k) =
        m.history.drop (m.history.length - k.toNat) := by
      simp [SignalManager.get_history, hk, pySliceFrom, pySliceIdx, hneg]
    refine ⟨heq, ?_⟩
    rw [heq]
    simp only [List.length_drop]
    omega
  · simp [SignalManager.get_history, not_lt.mpr hk]

/-- Witness for C5 at the concrete store `mHist` with limit 1: the most
recent single entry, returned oldest-first (here just `[sigOther]`). -/
theorem C5_witness : mHist.get_history (some 1) = [sigOther] := by
  rw [((C5_history_order mHist).2.1 1 (by decide)).1]
  decide

/-- Bridge state whose last contact was recorded at instant 0 and which
currently believes the peer is connected. -/
def bStale : MQL5Bridge :=
  { MQL5Bridge.init with last_heartbeat := some 0,
                         connection_status := "connected" }

/-- C6 counterexample: a `GET_SIGNALS` request processed at instant 7
leaves `last_heartbeat` exactly as it was (`none` here), so it is not
the updated reading `some 7` the claim requires; inbound RPC traffic of
this kind is invisible to the heartbeat monitor. -/
theorem C6_counterexample :
    (MQL5Bridge.init.process_request { action := "GET_SIGNALS" } 7).2.last_heartbeat
        ≠ some 7 ∧
    (MQL5Bridge.init.process_request { action := "GET_SIGNALS" } 7).2.last_heartbeat
        = MQL5Bridge.init.last_heartbeat := by
  constructor
  · decide
  · rfl

/-- C6 amended: only `SEND_STATUS` and `HEARTBEAT` update the
last-contact timestamp observed by the heartbeat monitor (and set the
status to connected); `GET_SIGNALS` and `GET_BRIDGE_STATUS` leave the
last-contact timestamp unchanged. -/
theorem C6_last_contact_updates (b : MQL5Bridge) (req : Request) (now : Int) :
    ((pyUpper req.action = "SEND_STATUS" ∨ pyUpper req.action = "HEARTBEAT") →
      (b.process_request req now).2.last_heartbeat = some now ∧
      (b.process_request req now).2.connection_status = "connected") ∧
    ((pyUpper req.action = "GET_SIGNALS" ∨
      pyUpper req.action = "GET_BRIDGE_STATUS") →
      (b.process_request req now).2.last_heartbeat = b.last_heartbeat) := by
  constructor
  · rintro (h | h) <;> simp [MQL5Bridge.process_request, h]
  · rintro (h | h) <;> simp [MQL5Bridge.process_request, h]

/-- Witness for C6 at a concrete state: a `HEARTBEAT` request at
instant 5 records last contact 5 and a connected status. -/
theorem C6_witness :
    (MQL5Bridge.init.process_request { action := "HEARTBEAT" } 5).2.last_heartbeat
        = some 5 ∧
    (MQL5Bridge.init.process_request { action := "HEARTBEAT" } 5).2.connection_status
        = "connected" :=
  (C6_last_contact_updates MQL5Bridge.init { action := "HEARTBEAT" } 5).1
    (Or.inr (by decide))

/-- C7 counterexample: with last contact at instant 0 and the default
30-second timeout, the monitor poll at instant 100 fires the degrade
action (and moves to disconnected), and the next poll at instant 105 —
with the peer still silent and the status already disconnected — fires
it again: the action fires on every poll, not once per transition. -/
theorem C7_counterexample :
    (bStale.monitor_tick 100).2 = true ∧
    (bStale.monitor_tick 100).1.connection_status = "disconnected" ∧
    ((bStale.monitor_tick 100).1.monitor_tick 105).2 = true := by
  refine ⟨rfl, rfl, rfl⟩

/-- C7 amended: the degrade transition is level-triggered, not
edge-triggered: whenever a last contact is recorded and more than
`heartbeat_timeout` has elapsed, every monitor poll sets the status to
disconnected and fires the degrade action and its diagnostic (and no
poll fires within the timeout); a subsequent `SEND_STATUS` or
`HEARTBEAT` request restores the connected status. -/
theorem C7_degrade_every_poll (b : MQL5Bridge) (t now : Int) (req : Request) :
    (b.last_heartbeat = some t → now - t > b.heartbeat_timeout →
      b.monitor_tick now =
        ({ b with connection_status := "disconnected" }, true)) ∧
    (b.last_heartbeat = some t → ¬ now - t > b.heartbeat_timeout →
      b.monitor_tick now = (b, false)) ∧
    ((pyUpper req.action = "SEND_STATUS" ∨ pyUpper req.action = "HEARTBEAT") →
      (b.process_request req now).2.connection_status = "connected") := by
  refine ⟨fun hl he => ?_, fun hl he => ?_, fun h => ?_⟩
  · simp [MQL5Bridge.monitor_tick, hl, he]
  · simp [MQL5Bridge.monitor_tick, hl, he]
  · rcases h with h | h <;> simp [MQL5Bridge.process_request, h]

/-- Witness for C7 at the concrete stale state: the poll at instant 100
(70 seconds past the 30-second timeout) degrades and fires. -/
theorem C7_witness :
    bStale.monitor_tick 100 =
      ({ bStale with connection_status := "disconnected" }, true) :=
  (C7_degrade_every_poll bStale 0 100 { action := "" }).1 rfl (by decide)

/-- Adding a signal never removes ids from the dedup set. -/
theorem add_signal_processed_mono (m : SignalManager) (s : TradeSignal)
    (id : String) (h : id ∈ m.processed_signals) :
    id ∈ (m.add_signal s).2.processed_signals := by
  by_cases hv : s.validate.1 = false
  · simp [SignalManager.add_signal, hv, h]
  · simp only [SignalManager.add_signal, hv]
    split_ifs <;> simp [hv, h]

/-- Dequeuing signals leaves the dedup set unchanged. -/
theorem get_signals_processed (m : SignalManager) (c : Option Int) :
    (m.get_signals c).2.processed_signals = m.processed_signals := by
  cases c <;> rfl

/-- No store operation removes ids from the dedup set. -/
theorem runOp_processed_mono (m : SignalManager) (op : StoreOp)
    (id : String) (h : id ∈ m.processed_signals) :
    id ∈ (runOp m op).processed_signals := by
  cases op with
  | add s => exact add_signal_processed_mono m s id h
  | take c => rw [runOp, get_signals_processed]; exact h
  | clear => exact h
  | history _ => exact h
  | find _ => exact h
  | size => exact h

/-- No sequence of store operations removes ids from the dedup set. -/
theorem runOps_processed_mono (ops : List StoreOp) (m : SignalManager)
    (id : String) (h : id ∈ m.processed_signals) :
    id ∈ (runOps m ops).processed_signals := by
  induction ops generalizing m with
  | nil => exact h
  | cons op rest ih => exact ih (runOp m op) (runOp_processed_mono m op id h)

/-- An id already in the dedup set makes `add_signal` reject and leave
the state unchanged. -/
theorem add_signal_dup_rejected (m : SignalManager) (s : TradeSignal)
    (h : s.signal_id ∈ m.processed_signals) :
    (m.add_signal s).1.1 = false ∧ (m.add_signal s).2 = m := by
  unfold SignalManager.add_signal
  by_cases hv : s.validate.1 = false
  · simp [hv]
  · simp [hv, h]

/-- C8: once a signal id is in the dedup set it survives every later
sequence of store operations — including `take` dequeues and `clear` —
and any later `add_signal` with that id is rejected with the store left
unchanged, so the id can never be re-added to the pending queue. -/
theorem C8_dedup_permanent (m : SignalManager) (ops : List StoreOp)
    (s : TradeSignal) (h : s.signal_id ∈ m.processed_signals) :
    s.signal_id ∈ (runOps m ops).processed_signals ∧
    ((runOps m ops).add_signal s).1.1 = false ∧
    ((runOps m ops).add_signal s).2 = runOps m ops := by
  have hmem := runOps_processed_mono ops m s.signal_id h
  exact ⟨hmem, (add_signal_dup_rejected _ s hmem).1,
    (add_signal_dup_rejected _ s hmem).2⟩

/-- Witness for C8 at a concrete run: enqueue `sigPlain`, drain the
queue, clear it; re-adding `sigPlain` is still rejected and the state
is untouched. -/
theorem C8_witness :
    sigPlain.signal_id ∈
      (runOps ((SignalManager.init 1000 10000).add_signal sigPlain).2
        [StoreOp.take none, StoreOp.clear]).processed_signals ∧
    ((runOps ((SignalManager.init 1000 10000).add_signal sigPlain).2
        [StoreOp.take none, StoreOp.clear]).add_signal sigPlain).1.1 = false ∧
    ((runOps ((SignalManager.init 1000 10000).add_signal sigPlain).2
        [StoreOp.take none, StoreOp.clear]).add_signal sigPlain).2 =
      runOps ((SignalManager.init 1000 10000).add_signal sigPlain).2
        [StoreOp.take none, StoreOp.clear] :=
  C8_dedup_permanent ((SignalManager.init 1000 10000).add_signal sigPlain).2
    [StoreOp.take none, StoreOp.clear] sigPlain (by decide)

/-- Digit characters are recognised as digits. -/
theorem digitChar_isDigit (d : Nat) (h : d < 10) :
    (digitChar d).isDigit = true := by
  interval_cases d <;> decide

/-- Code point of a digit character. -/
theorem digitChar_toNat (d : Nat) (h : d < 10) :
    (digitChar d).toNat = 48 + d := by
  interval_cases d <;> decide

/-- Reading back a two-digit rendering recovers the value. -/
theorem read2_pad2 (n : Nat) (h : n < 100) (rest : List Char) :
    read2 (pad2 n ++ rest) = some (n, rest) := by
  have h1 : n / 10 < 10 := by omega
  have h2 : n % 10 < 10 := by omega
  simp [pad2, read2, digitChar_isDigit _ h1, digitChar_isDigit _ h2,
    digitChar_toNat _ h1, digitChar_toNat _ h2]
  omega

/-- Reading back a two-digit rendering at the end of the input. -/
theorem read2_pad2_nil (n : Nat) (h : n < 100) :
    read2 (pad2 n) = some (n, []) := by
  simpa using read2_pad2 n h []

/-- Consuming the separator that is there succeeds. -/
theorem expectChar_cons (c : Char) (rest : List Char) :
    expectChar c (c :: rest) = some rest := by
  simp [expectChar]

/-- Round trip of the timestamp text format: parsing the canonical
rendering of a valid datetime recovers it exactly. -/
theorem fromisoformat_isoformat (t : PyDateTime) (h : t.Valid) :
    fromisoformat (isoformat t) = some t := by
  obtain ⟨y, mo, d, hr, mi, s, u⟩ := t
  obtain ⟨hy1, hy2, hm1, hm2, hd1, hd2, hh, hmi, hs, hu⟩ := h
  dsimp only at hy1 hy2 hm1 hm2 hd1 hd2 hh hmi hs hu
  have hyA : y / 100 < 100 := by omega
  have hyB : y % 100 < 100 := by omega
  have hmo : mo < 100 := by omega
  have hda : d < 100 := by omega
  have hho : hr < 100 := by omega
  have hmn : mi < 100 := by omega
  have hse : s < 100 := by omega
  have hyy : y / 100 * 100 + y % 100 = y := by omega
  show fromisoChars (isoChars ⟨y, mo, d, hr, mi, s, u⟩) = some ⟨y, mo, d, hr, mi, s, u⟩
  have hiso : isoChars ⟨y, mo, d, hr, mi, s, u⟩ =
      pad2 (y / 100) ++ (pad2 (y % 100) ++ '-' ::
      (pad2 mo ++ '-' :: (pad2 d ++ 'T' ::
      (pad2 hr ++ ':' :: (pad2 mi ++ ':' ::
      (pad2 s ++ (if u = 0 then [] else '.' :: pad6 u))))))) := by
    simp [isoChars, pad4]
  rw [hiso]
  simp only [fromisoChars, read2_pad2 _ hyA, read2_pad2 _ hyB,
    read2_pad2 _ hmo, read2_pad2 _ hda, read2_pad2 _ hho,
    read2_pad2 _ hmn, read2_pad2 _ hse, expectChar_cons, Option.some_bind]
  rw [hyy]
  by_cases hu0 : u = 0
  · rw [if_pos hu0, hu0]
    rfl
  · rw [if_neg hu0]
    have huA : u / 10000 < 100 := by omega
    have huB : u / 100 % 100 < 100 := by omega
    have huC : u % 100 < 100 := by omega
    have huu : u / 10000 * 10000 + u / 100 % 100 * 100 + u % 100 = u := by
      omega
    have hpad6 : pad6 u =
        pad2 (u / 10000) ++ (pad2 (u / 100 % 100) ++ pad2 (u % 100)) := by
      simp [pad6]
    rw [hpad6]
    simp only [parseFraction, read2_pad2 _ huA, read2_pad2 _ huB,
      read2_pad2_nil _ huC, Option.some_bind]
    rw [huu]

/-- C9: deserialising the canonical serialised form of a signal gives
back a signal equal in every field — symbol, action, broker, lot size,
stop-loss, take-profit, comment, id — with the timestamp recovered
exactly from its normalised textual rendering. -/
theorem C9_serialization_roundtrip (s : TradeSignal)
    (h : s.timestamp.Valid) :
    TradeSignal.from_dict s.to_dict = some s := by
  unfold TradeSignal.from_dict TradeSignal.to_dict
  simp only [fromisoformat_isoformat s.timestamp h, Option.bind_eq_bind,
    Option.some_bind]

/-- Witness for C9 at a concrete signal (timestamp
2024-03-05 14:07:09). -/
theorem C9_witness : TradeSignal.from_dict sigValid.to_dict = some sigValid :=
  C9_serialization_roundtrip sigValid (by decide)

end Bridge
